import Mathlib

/-!
Verification of the asset-QR-code sheet generator (generate_qrcodes.py).

The core logic is `gen_ids`, which builds the list of asset IDs (explicit
IDs first, then contiguous padding IDs from `start_at`) and chunks it into
pages of `QR_CODES_PER_PAGE` entries.  The label renderer computes a
zero-padded caption string, a QR payload, and a grid position from the
index of the label on the page.  All of these are embedded below as pure
functions, translated directly from the Python source.
-/

namespace QrCodes

/-- QR_CODES_PER_PAGE = 35 -/
def QR_CODES_PER_PAGE : Nat := 35

/-- MARGIN_LEFT = 7.5 -/
def MARGIN_LEFT : ℚ := 7.5

/-- MARGIN_TOP = 11 -/
def MARGIN_TOP : ℚ := 11

/-- MARGIN_INSIDE = 5 -/
def MARGIN_INSIDE : ℚ := 5

/-- STICKER_WIDTH = 35 -/
def STICKER_WIDTH : ℚ := 35

/-- STICKER_HEIGHT = 35 -/
def STICKER_HEIGHT : ℚ := 35

/-- Python truthiness of a possibly-absent list, as used in
`ids = extra_ids or []`: `None` and the empty list are falsy, so both
yield `[]`; any non-empty list is returned as is. -/
def orEmpty (extra_ids : Option (List Int)) : List Int :=
  match extra_ids with
  | none => []
  | some l => if l.isEmpty then [] else l

/-- The generator expression
`(i + start_at for i in range(n))`: the `n` contiguous padding IDs
`start_at, start_at + 1, ...`.  Python's `range` on a negative argument is
empty; the caller converts via `Int.toNat`, which realizes that. -/
def pad_ids (start_at : Int) (n : Nat) : List Int :=
  (List.range n).map (fun i : Nat => (i : Int) + start_at)

/-- The fully padded ID list built by `gen_ids` before chunking:
`ids = extra_ids or []` followed by
`ids.extend(i + start_at for i in range(QR_CODES_PER_PAGE * num_pages - len(ids)))`. -/
def all_ids (start_at num_pages : Int) (extra_ids : Option (List Int)) : List Int :=
  let ids := orEmpty extra_ids
  ids ++ pad_ids start_at ((QR_CODES_PER_PAGE * num_pages - (ids.length : Int)).toNat)

/-- The chunking comprehension
`[ids[i:i + QR_CODES_PER_PAGE] for i in range(0, len(ids), QR_CODES_PER_PAGE)]`:
the slice start `i` is `QR_CODES_PER_PAGE * k` for
`k = 0, 1, ...` while `i < len(ids)`, so there are
`ceil(len(ids) / QR_CODES_PER_PAGE)` slices, and the slice `ids[i:i+35]`
is `(ids.drop i).take 35`. -/
def gen_pages (ids : List Int) : List (List Int) :=
  (List.range ((ids.length + QR_CODES_PER_PAGE - 1) / QR_CODES_PER_PAGE)).map
    (fun k => (ids.drop (QR_CODES_PER_PAGE * k)).take QR_CODES_PER_PAGE)

/-- gen_ids(start_at, num_pages, extra_ids) from the source. -/
def gen_ids (start_at num_pages : Int) (extra_ids : Option (List Int)) :
    List (List Int) :=
  gen_pages (all_ids start_at num_pages extra_ids)

/-- The Python format expression
`'{asset_id:0{width}d}'.format(asset_id=asset_id, width=width)` for a
non-negative `asset_id`: the decimal representation, left-padded with
zeros to `width` characters (never truncated). -/
def id_str (asset_id width : Nat) : String :=
  let s := toString asset_id
  String.mk (List.replicate (width - s.length) '0' ++ s.data)

/-- The caption drawn under the QR code (`draw.text(..., id_str, ...)`):
the bare `id_str`, without the prefix. -/
def caption (asset_id width : Nat) : String := id_str asset_id width

/-- The QR payload `'{}{}'.format(prefix, id_str)`: the prefix followed by
the padded ID string. -/
def qr_data (pfx : String) (asset_id width : Nat) : String :=
  pfx ++ id_str asset_id width

/-- The spec's words for the caption: the ID rendered as a zero-padded
decimal string of the given width. -/
def zero_padded_decimal (width asset_id : Nat) : String :=
  String.mk (List.leftpad width '0' (Nat.toDigits 10 asset_id))

/-- x_pos = MARGIN_LEFT + (idx % 5) * (STICKER_WIDTH + MARGIN_INSIDE) -/
def x_pos (idx : Nat) : ℚ :=
  MARGIN_LEFT + ((idx % 5 : Nat) : ℚ) * (STICKER_WIDTH + MARGIN_INSIDE)

/-- y_pos = MARGIN_TOP + (idx // 5) * (STICKER_HEIGHT + MARGIN_INSIDE) -/
def y_pos (idx : Nat) : ℚ :=
  MARGIN_TOP + ((idx / 5 : Nat) : ℚ) * (STICKER_HEIGHT + MARGIN_INSIDE)

/-! ### Structural lemmas about the chunker -/

theorem gen_pages_nil : gen_pages [] = [] := rfl

theorem gen_pages_cons (ids : List Int) (h : ids ≠ []) :
    gen_pages ids =
      ids.take QR_CODES_PER_PAGE :: gen_pages (ids.drop QR_CODES_PER_PAGE) := by
  have hn : 1 ≤ ids.length := List.length_pos.mpr h
  unfold gen_pages
  rw [List.length_drop]
  have hm : (ids.length + QR_CODES_PER_PAGE - 1) / QR_CODES_PER_PAGE
      = (ids.length - QR_CODES_PER_PAGE + QR_CODES_PER_PAGE - 1) / QR_CODES_PER_PAGE
        + 1 := by
    simp only [QR_CODES_PER_PAGE]
    omega
  rw [hm, List.range_succ_eq_map, List.map_cons, List.map_map]
  congr 1
  refine List.map_congr_left (fun k _ => ?_)
  simp only [Function.comp_apply, List.drop_drop]
  congr 2
  simp only [QR_CODES_PER_PAGE]
  omega

theorem gen_pages_flatten_aux :
    ∀ (n : Nat) (ids : List Int), ids.length ≤ n → (gen_pages ids).flatten = ids := by
  intro n
  induction n with
  | zero =>
    intro ids h
    have : ids = [] := List.length_eq_zero.mp (Nat.le_zero.mp h)
    simp [this, gen_pages_nil]
  | succ n ih =>
    intro ids h
    rcases eq_or_ne ids [] with rfl | hne
    · simp [gen_pages_nil]
    · rw [gen_pages_cons ids hne, List.flatten_cons,
        ih (ids.drop QR_CODES_PER_PAGE) ?_, List.take_append_drop]
      have : 1 ≤ ids.length := List.length_pos.mpr hne
      rw [List.length_drop]
      simp only [QR_CODES_PER_PAGE]
      omega

theorem gen_pages_flatten (ids : List Int) : (gen_pages ids).flatten = ids :=
  gen_pages_flatten_aux ids.length ids le_rfl

theorem length_gen_pages (ids : List Int) :
    (gen_pages ids).length
      = (ids.length + QR_CODES_PER_PAGE - 1) / QR_CODES_PER_PAGE := by
  simp [gen_pages]

theorem mem_gen_pages (ids : List Int) (p : List Int) (hp : p ∈ gen_pages ids) :
    ∃ k, k < (ids.length + QR_CODES_PER_PAGE - 1) / QR_CODES_PER_PAGE ∧
      p = (ids.drop (QR_CODES_PER_PAGE * k)).take QR_CODES_PER_PAGE := by
  simp only [gen_pages, List.mem_map, List.mem_range] at hp
  obtain ⟨k, hk, hpk⟩ := hp
  exact ⟨k, hk, hpk.symm⟩

theorem orEmpty_some (l : List Int) : orEmpty (some l) = l := by
  cases l <;> rfl

theorem length_pad_ids (s : Int) (m : Nat) : (pad_ids s m).length = m := by
  rw [pad_ids, List.length_map, List.length_range]

theorem length_mem_gen_pages (ids : List Int) (p : List Int)
    (hp : p ∈ gen_pages ids) :
    ∃ k, k < (ids.length + QR_CODES_PER_PAGE - 1) / QR_CODES_PER_PAGE ∧
      p.length = min QR_CODES_PER_PAGE (ids.length - QR_CODES_PER_PAGE * k) := by
  obtain ⟨k, hk, hpk⟩ := mem_gen_pages ids p hp
  subst hpk
  exact ⟨k, hk, by simp [List.length_take, List.length_drop]⟩

theorem dropLast_gen_pages (ids : List Int) (p : List Int)
    (hp : p ∈ (gen_pages ids).dropLast) : p.length = QR_CODES_PER_PAGE := by
  unfold gen_pages at hp
  rcases hm : (ids.length + QR_CODES_PER_PAGE - 1) / QR_CODES_PER_PAGE with _ | t
  · rw [hm] at hp
    simp at hp
  · rw [hm, List.range_succ, List.map_append, List.map_cons, List.map_nil,
      List.dropLast_concat] at hp
    simp only [List.mem_map, List.mem_range] at hp
    obtain ⟨k, hk, hpk⟩ := hp
    subst hpk
    simp only [List.length_take, List.length_drop]
    simp only [QR_CODES_PER_PAGE] at hm ⊢
    omega

theorem getLast_gen_pages (ids : List Int) (p : List Int)
    (hp : (gen_pages ids).getLast? = some p) :
    (p.length : Int) = (ids.length : Int)
      - (QR_CODES_PER_PAGE : Int) * (((gen_pages ids).length : Int) - 1) := by
  rw [length_gen_pages]
  unfold gen_pages at hp
  rcases hm : (ids.length + QR_CODES_PER_PAGE - 1) / QR_CODES_PER_PAGE with _ | t
  · rw [hm] at hp
    simp at hp
  · rw [hm, List.range_succ, List.map_append, List.map_cons, List.map_nil,
      List.getLast?_concat] at hp
    obtain rfl : (ids.drop (QR_CODES_PER_PAGE * t)).take QR_CODES_PER_PAGE = p :=
      Option.some_injective _ hp
    simp only [List.length_take, List.length_drop]
    simp only [QR_CODES_PER_PAGE] at hm ⊢
    omega

/-! ### Concrete evaluations -/

/-- C1: the claim says the total number of IDs is always a multiple of 35.
It is not: with `start_at = 0`, `num_pages = 1` and 36 explicit IDs the
padding range `range(35 * 1 - 36)` is empty, so the code returns 36 IDs in
pages of sizes 35 and 1, and 36 is not a multiple of 35.  This contradicts
the docstring of `gen_ids` (extra codes are generated to ensure all pages
are full), so the code, not the claim, is at fault. -/
theorem C1_total_not_multiple_of_35_at_36_extras :
    ((gen_ids 0 1 (some (List.replicate 36 1))).map List.length) = [35, 1] ∧
      ¬ (35 ∣ (36 : Nat)) := by
  constructor
  · rfl
  · decide

/-- C2: the claim says that when `len(extra_ids) > 35 * num_pages` enough
padding is generated to fill every page.  The code adds no padding in that
case: with `start_at = 1`, `num_pages = 1` and 40 explicit IDs it returns
pages of sizes 35 and 5.  The claim's own concrete example
(`num_pages = 2`, 40 explicit IDs) does hold, because there
`len(extra_ids) = 40 ≤ 70 = 35 * num_pages`: the output is the 40 explicit
IDs followed by the 30 padding IDs `1..30`, in two full pages. -/
theorem C2_no_padding_when_extras_overflow :
    ((gen_ids 1 1 (some (List.replicate 40 9))).map List.length) = [35, 5] ∧
      ((gen_ids 1 2 (some (List.replicate 40 9))).map List.length) = [35, 35] ∧
      (gen_ids 1 2 (some (List.replicate 40 9))).flatten
        = List.replicate 40 9 ++ pad_ids 1 30 := by
  refine ⟨rfl, rfl, ?_⟩
  rfl

/-- C6: `start_at = 100`, `num_pages = 1`, `extra_ids = [5, 6]` yields
exactly one page: the two explicit IDs followed by the 33 contiguous
padding IDs `100..132`. -/
theorem C6_example_100_1_5_6 :
    gen_ids 100 1 (some [5, 6]) =
      [[5, 6, 100, 101, 102, 103, 104, 105, 106, 107, 108, 109, 110, 111,
        112, 113, 114, 115, 116, 117, 118, 119, 120, 121, 122, 123, 124,
        125, 126, 127, 128, 129, 130, 131, 132]] := by
  rfl

/-- C10: passing `extra_ids = None` and passing an empty list produce the
same pages, because `extra_ids or []` maps both to `[]`. -/
theorem C10_none_eq_empty (start_at num_pages : Int) :
    gen_ids start_at num_pages none = gen_ids start_at num_pages (some []) := rfl

/-- C3: with an empty `extra_ids` list, `gen_ids` returns exactly
`num_pages` pages of 35 IDs each, and their concatenation is
`start_at, start_at + 1, ..., start_at + 35 * num_pages - 1` in order. -/
theorem C3_empty_extras (s n : Int) (hs : 0 ≤ s) (hn : 1 ≤ n) :
    ((gen_ids s n (some [])).length : Int) = n ∧
    (∀ p ∈ gen_ids s n (some []), p.length = QR_CODES_PER_PAGE) ∧
    (gen_ids s n (some [])).flatten
      = (List.range (QR_CODES_PER_PAGE * n.toNat)).map
          (fun i : Nat => s + (i : Int)) := by
  have hids : all_ids s n (some []) = pad_ids s (QR_CODES_PER_PAGE * n.toNat) := by
    simp only [all_ids, orEmpty_some, List.length_nil, Nat.cast_zero, List.nil_append]
    congr 1
    simp only [QR_CODES_PER_PAGE]
    omega
  refine ⟨?_, ?_, ?_⟩
  · rw [gen_ids, length_gen_pages, hids, length_pad_ids]
    simp only [QR_CODES_PER_PAGE]
    omega
  · intro p hp
    rw [gen_ids] at hp
    obtain ⟨k, hk, hlen⟩ := length_mem_gen_pages _ p hp
    rw [hids, length_pad_ids] at hk hlen
    simp only [QR_CODES_PER_PAGE] at hk hlen ⊢
    omega
  · rw [gen_ids, gen_pages_flatten, hids, pad_ids]
    exact List.map_congr_left (fun i _ => add_comm _ _)

/-- C3 witness at `start_at = 1`, `num_pages = 1`. -/
theorem C3_empty_extras_witness :
    ((0 : Int) ≤ 1 ∧ (1 : Int) ≤ 1) ∧
    (((gen_ids 1 1 (some [])).length : Int) = 1 ∧
      (∀ p ∈ gen_ids 1 1 (some []), p.length = QR_CODES_PER_PAGE) ∧
      (gen_ids 1 1 (some [])).flatten
        = (List.range (QR_CODES_PER_PAGE * (1 : Int).toNat)).map
            (fun i : Nat => 1 + (i : Int))) :=
  ⟨⟨by decide, by decide⟩, C3_empty_extras 1 1 (by decide) (by decide)⟩

/-- C4: for a non-empty explicit list, the first `len(extra_ids)` IDs of
the output, in page-major then within-page order, are exactly `extra_ids`
in the order supplied. -/
theorem C4_extras_first (s n : Int) (l : List Int) (hs : 0 ≤ s) (hn : 1 ≤ n)
    (hl : l ≠ []) :
    ((gen_ids s n (some l)).flatten).take l.length = l := by
  rw [gen_ids, gen_pages_flatten]
  simp only [all_ids, orEmpty_some]
  exact List.take_left l _

/-- C4 witness at `start_at = 5`, `num_pages = 1`, `extra_ids = [3, 4]`. -/
theorem C4_extras_first_witness :
    ((gen_ids 5 1 (some [3, 4])).flatten).take ([3, 4] : List Int).length
      = [3, 4] :=
  C4_extras_first 5 1 [3, 4] (by decide) (by decide) (by decide)

/-- C5 counterexample: with `start_at = 1`, `num_pages = 1`,
`extra_ids = [1]`, the ID 1 is in the explicit list and also among the 34
contiguous padding IDs generated from `start_at`, so it appears twice in
the output: explicit IDs are not excluded from the padding range. -/
theorem C5_counterexample_collision :
    (1 : Int) ∈ ([1] : List Int) ∧
    (1 : Int) ∈ pad_ids 1
        ((QR_CODES_PER_PAGE * (1 : Int) - ((([1] : List Int).length : Int))).toNat) ∧
    (gen_ids 1 1 (some [1])).flatten.count 1 = 2 := by
  refine ⟨by decide, by decide, ?_⟩
  rfl

/-- C5 amended: provided every explicit ID is below `start_at` (the
intended use, reprinting IDs issued earlier), no ID appears both in
`extra_ids` and among the contiguous padding IDs, because every padding ID
is at least `start_at`.  Without such a hypothesis collisions are
possible, since duplicates are not filtered. -/
theorem C5_no_collision_below_start (s n : Int) (l : List Int)
    (h : ∀ x ∈ l, x < s) :
    ∀ x ∈ l, x ∉ pad_ids s ((QR_CODES_PER_PAGE * n - (l.length : Int)).toNat) := by
  intro x hx hmem
  simp only [pad_ids, List.mem_map, List.mem_range] at hmem
  obtain ⟨i, _, hi⟩ := hmem
  have hxs := h x hx
  omega

/-- C5 witness at `start_at = 100`, `num_pages = 1`, `extra_ids = [5, 6]`. -/
theorem C5_no_collision_below_start_witness :
    (5 : Int) ∉ pad_ids 100
      ((QR_CODES_PER_PAGE * (1 : Int) - ((([5, 6] : List Int).length : Int))).toNat) :=
  C5_no_collision_below_start 100 1 [5, 6] (by decide) 5 (by decide)

/-- C7: for all inputs, the concatenated output is `extra_ids` followed by
the `max(0, 35 * num_pages - len(extra_ids))` contiguous padding IDs from
`start_at`; the total count is `max(len(extra_ids), 35 * num_pages)`;
every page except possibly the last holds exactly 35 IDs; and the last
page holds the remaining IDs. -/
theorem C7_structure (s n : Int) (e : Option (List Int)) :
    (gen_ids s n e).flatten
        = orEmpty e
          ++ pad_ids s ((QR_CODES_PER_PAGE * n - ((orEmpty e).length : Int)).toNat) ∧
    (((gen_ids s n e).flatten.length : Int))
        = max ((orEmpty e).length : Int) (QR_CODES_PER_PAGE * n) ∧
    (∀ p ∈ (gen_ids s n e).dropLast, p.length = QR_CODES_PER_PAGE) ∧
    (∀ p, (gen_ids s n e).getLast? = some p →
        (p.length : Int) = ((gen_ids s n e).flatten.length : Int)
          - (QR_CODES_PER_PAGE : Int) * (((gen_ids s n e).length : Int) - 1)) := by
  have hflat : (gen_ids s n e).flatten = all_ids s n e := gen_pages_flatten _
  refine ⟨hflat, ?_, ?_, ?_⟩
  · rw [hflat]
    simp only [all_ids, List.length_append, length_pad_ids, QR_CODES_PER_PAGE]
    push_cast
    omega
  · intro p hp
    exact dropLast_gen_pages _ p hp
  · intro p hp
    rw [hflat]
    have h := getLast_gen_pages (all_ids s n e) p hp
    rw [gen_ids, length_gen_pages] at *
    rw [h]

/-- C8: the printed caption is the asset ID as a zero-padded decimal
string of the requested width, the QR payload is the prefix followed by
that same string (so the prefix is absent from the caption); concretely,
asset ID 7 at width 5 gives caption 00007 and payload A-00007 for
prefix A-. -/
theorem C8_caption_and_payload (a w : Nat) (pfx : String) :
    caption a w = zero_padded_decimal w a ∧
    qr_data pfx a w = pfx ++ caption a w ∧
    caption 7 5 = "00007" ∧
    qr_data "A-" 7 5 = "A-00007" := by
  refine ⟨?_, rfl, by decide, by decide⟩
  rfl

/-- C9: label `idx` on a page goes to column `idx mod 5` and row
`idx div 5` of the 5-by-7 grid (row-major, left to right then top to
bottom), at the position given by the fixed margins and the sticker size
plus the inter-sticker margin. -/
theorem C9_grid_position (idx : Nat) (h : idx ≤ 34) :
    idx % 5 < 5 ∧ idx / 5 < 7 ∧ idx = 5 * (idx / 5) + idx % 5 ∧
    x_pos idx = MARGIN_LEFT + ((idx % 5 : Nat) : ℚ) * (STICKER_WIDTH + MARGIN_INSIDE) ∧
    y_pos idx = MARGIN_TOP + ((idx / 5 : Nat) : ℚ) * (STICKER_HEIGHT + MARGIN_INSIDE) := by
  refine ⟨?_, ?_, ?_, rfl, rfl⟩ <;> omega

/-- C9 witness at `idx = 12` (column 2, row 2). -/
theorem C9_grid_position_witness :
    (12 : Nat) ≤ 34 ∧
    (12 % 5 < 5 ∧ 12 / 5 < 7 ∧ 12 = 5 * (12 / 5) + 12 % 5 ∧
      x_pos 12 = MARGIN_LEFT + ((12 % 5 : Nat) : ℚ) * (STICKER_WIDTH + MARGIN_INSIDE) ∧
      y_pos 12 = MARGIN_TOP + ((12 / 5 : Nat) : ℚ) * (STICKER_HEIGHT + MARGIN_INSIDE)) :=
  ⟨by decide, C9_grid_position 12 (by decide)⟩

end QrCodes
